import Mathlib

set_option autoImplicit false

namespace AkaiLpd8

/-!
Shallow embedding of the akai-lpd8-obs event-reconciliation core.

Sources: src/lpd8/mod.rs (input normalizer) and src/obs/mod.rs (mapping table,
scene cache, action dispatcher, event loop). The crate-root declarations
`Action`, `Volume`, `ConditionalAction` live outside src/; their shape is
reconstructed from their use sites in src/obs/mod.rs (the exhaustive `match` in
`Obs::execute_action`, the field accesses in `build_cc_mappings`, and the
signature of `build_cc_mappings`).

Machine integers (`u8`, `i64`) are embedded as `Nat`/`Int`; the byte values
involved never overflow. `f32` arithmetic in the volume computation is embedded
as exact rational arithmetic. `HashMap` is embedded as an association list with
propositional-equality lookup; `Result` as `Except String`; remote calls are
parameterized by an explicit outcome function.
-/

/-- The `Input` enum from src/lpd8/mod.rs: eight pads and eight knobs. -/
inductive Input where
  | pad1 | pad2 | pad3 | pad4 | pad5 | pad6 | pad7 | pad8
  | knob1 | knob2 | knob3 | knob4 | knob5 | knob6 | knob7 | knob8
  deriving DecidableEq, Fintype, Repr

/-- The `LPD8Error` enum from src/lpd8/mod.rs. -/
inductive LPD8Error where
  | notFound
  | midiError
  | unknownInput (value : Nat)
  deriving DecidableEq, Repr

/-- Decidable equality for `Except` results, used to evaluate the embedding on
concrete inputs. -/
instance {ε α : Type} [DecidableEq ε] [DecidableEq α] : DecidableEq (Except ε α) :=
  fun a b =>
    match a, b with
    | .ok x, .ok y =>
      if h : x = y then .isTrue (by rw [h]) else
        .isFalse (fun hc => h (Except.ok.inj hc))
    | .error x, .error y =>
      if h : x = y then .isTrue (by rw [h]) else
        .isFalse (fun hc => h (Except.error.inj hc))
    | .ok _, .error _ => .isFalse (fun hc => Except.noConfusion hc)
    | .error _, .ok _ => .isFalse (fun hc => Except.noConfusion hc)

/-- `impl TryFrom<u8> for Input` from src/lpd8/mod.rs: the raw-code to semantic
input mapping, an if-chain over the raw byte. -/
def Input.tryFrom (value : Nat) : Except LPD8Error Input :=
  if value = 0 ∨ value = 12 then .ok .pad1
  else if value = 1 ∨ value = 13 then .ok .pad2
  else if value = 2 ∨ value = 14 then .ok .pad3
  else if value = 3 ∨ value = 15 then .ok .pad4
  else if value = 4 ∨ value = 16 then .ok .pad5
  else if value = 5 ∨ value = 17 then .ok .pad6
  else if value = 6 ∨ value = 18 then .ok .pad7
  else if value = 7 ∨ value = 19 then .ok .pad8
  else if value = 70 then .ok .knob1
  else if value = 71 then .ok .knob2
  else if value = 72 then .ok .knob3
  else if value = 73 then .ok .knob4
  else if value = 74 then .ok .knob5
  else if value = 75 then .ok .knob6
  else if value = 76 then .ok .knob7
  else if value = 77 then .ok .knob8
  else .error (.unknownInput value)

/-- Whether an `Input` is one of the eight pad identifiers. -/
def Input.isPad : Input → Bool
  | .pad1 | .pad2 | .pad3 | .pad4 | .pad5 | .pad6 | .pad7 | .pad8 => true
  | _ => false

/-- The `Lpd8Message` enum from src/lpd8/mod.rs. -/
inductive Lpd8Message where
  | programChange (input : Input)
  | controlChange (input : Input) (value : Nat)
  deriving DecidableEq, Repr

/-- `program_change` from src/lpd8/mod.rs: a failed input resolution is logged
and dropped (`log_error` turns the `Result` into an `Option`). -/
def program_change (num : Nat) : Option Lpd8Message :=
  (Input.tryFrom num).toOption.map .programChange

/-- `control_change` from src/lpd8/mod.rs: as `program_change`, keeping the raw
value. -/
def control_change (num value : Nat) : Option Lpd8Message :=
  (Input.tryFrom num).toOption.map (fun i => .controlChange i value)

/-- `process_input` from src/lpd8/mod.rs: classify a raw byte sequence into at
most one message.  The source tests `status & 0xC0 == 0xC0 && msg.len() == 2`
for the program-change branch and `status & 0xB0 == 0xB0 && msg.len() == 3` for
the control-change branch. -/
def process_input (msg : List Nat) : Option Lpd8Message :=
  if msg.isEmpty then none
  else
    let status := msg.headD 0
    if status &&& 0xC0 = 0xC0 ∧ msg.length = 2 then
      program_change (msg.getD 1 0)
    else if status &&& 0xB0 = 0xB0 ∧ msg.length = 3 then
      control_change (msg.getD 1 0) (msg.getD 2 0)
    else
      none

/-- Association-list embedding of `HashMap::get`. -/
def lookupA {α β : Type} [DecidableEq α] : List (α × β) → α → Option β
  | [], _ => none
  | (k, v) :: rest, a => if k = a then some v else lookupA rest a

/-- Association-list embedding of `HashMap::insert`: replaces the value at an
existing key, appends a fresh binding otherwise. -/
def updateA {α β : Type} [DecidableEq α] : List (α × β) → α → β → List (α × β)
  | [], a, b => [(a, b)]
  | (k, v) :: rest, a, b => if k = a then (a, b) :: rest else (k, v) :: updateA rest a b

/-- The crate `Volume` configuration type, reconstructed from its use in
`Obs::execute_action`: `Pass` forwards the triggering raw value, `Value v`
holds a configured integer. -/
inductive Volume where
  | pass
  | value (v : Nat)
  deriving DecidableEq, Repr

/-- The crate `Action` type, reconstructed from the exhaustive `match` in
`Obs::execute_action` (src/obs/mod.rs): exactly these five variants occur as
patterns and the match has no wildcard arm. -/
inductive Action where
  | setScene (name : String)
  | setVolume (name : String) (value : Volume)
  | toggleInput (name : String)
  | enableSceneItem (name : String)
  | disableSceneItem (name : String)
  deriving DecidableEq, Repr

/-- The crate `ConditionalAction` type, reconstructed from `build_cc_mappings`:
an optional trigger value (the source field `on`, renamed `on_value` here since
`on` is reserved) and the action to run. -/
structure ConditionalAction where
  on_value : Option Nat
  action : Action
  deriving DecidableEq, Repr

/-- `MappingWithDefault` from src/obs/mod.rs: per-value actions plus an optional
default. -/
structure MappingWithDefault where
  by_value : List (Nat × Action)
  default : Option Action
  deriving DecidableEq, Repr

/-- `MappingWithDefault::default()` (the `Default` derive): both fields empty. -/
def MappingWithDefault.empty : MappingWithDefault := ⟨[], none⟩

/-- `MappingWithDefault::get` from src/obs/mod.rs:
`self.by_value.get(&value).or(self.default.as_ref())`. -/
def MappingWithDefault.get (m : MappingWithDefault) (value : Nat) : Option Action :=
  (lookupA m.by_value value).or m.default

/-- One `(input, action)` step of the inner loop of `build_cc_mappings`:
`entry(input).or_default()` followed by either a `by_value` insert or setting
the default. -/
def cc_insert (grouped : List (Input × MappingWithDefault))
    (ia : Input × ConditionalAction) : List (Input × MappingWithDefault) :=
  let mapping := (lookupA grouped ia.1).getD .empty
  match ia.2.on_value with
  | some value =>
    updateA grouped ia.1 { mapping with by_value := updateA mapping.by_value value ia.2.action }
  | none =>
    updateA grouped ia.1 { mapping with default := some ia.2.action }

/-- `build_cc_mappings` from src/obs/mod.rs: fold all configuration blocks into
one control-change table. -/
def build_cc_mappings (cc_mappings : List (List (Input × ConditionalAction))) :
    List (Input × MappingWithDefault) :=
  cc_mappings.foldl (fun grouped kv => kv.foldl cc_insert grouped) []

/-- Control-change resolution as performed by the event loop: look the input up
in the control-change table, then apply `MappingWithDefault::get` to the value. -/
def resolve_cc (cc : List (Input × MappingWithDefault)) (input : Input)
    (value : Nat) : Option Action :=
  (lookupA cc input).bind (fun m => m.get value)

/-- `obws` scene identifier as used by src/obs/mod.rs: a name and a uuid. -/
structure SceneId where
  name : String
  uuid : String
  deriving DecidableEq, Repr

/-- `obws` input (source) identifier as used by src/obs/mod.rs. -/
structure InputId where
  name : String
  uuid : String
  deriving DecidableEq, Repr

/-- `CurrentScene` from src/obs/mod.rs: the scene-state cache, an id and the
item-name to item-id map of that scene. -/
structure CurrentScene where
  id : SceneId
  inputs : List (String × Int)
  deriving DecidableEq, Repr

/-- The catalog part of the `Obs` struct from src/obs/mod.rs: scene and input
catalogs snapshotted at connect time, read-only afterwards. -/
structure ObsState where
  scenes : List (String × SceneId)
  inputs : List (String × InputId)
  deriving DecidableEq, Repr

/-- A remote command issued through the `obws` client by `execute_action`. -/
inductive Command where
  | setCurrentProgramScene (scene : SceneId)
  | setVolumeMul (input : InputId) (mul : ℚ)
  | toggleMute (input : InputId)
  | setEnabled (scene : SceneId) (item : Int) (enabled : Bool)
  deriving DecidableEq, Repr

/-- Outcome of each remote call, supplied as an environment (the network and the
remote session are external collaborators). -/
def Net : Type := Command → Except String Unit

/-- The volume multiplier computed in the `SetVolume` branch of
`execute_action`: `Volume::Pass` divides the triggering raw value by 127,
`Volume::Value(v)` divides the configured integer by 100 (`f32` arithmetic
embedded as exact rationals). -/
def volume_mul (value : Volume) (data : Nat) : ℚ :=
  match value with
  | .pass => (data : ℚ) / 127
  | .value v => (v : ℚ) / 100

/-- `Obs::execute_action` from src/obs/mod.rs: returns the remote commands
issued, in order, and the `Result` value of the function. Every branch guards
the remote call behind a catalog (or scene-snapshot) lookup and falls through
to `Ok(())` when the name does not resolve. -/
def execute_action (obs : ObsState) (net : Net) (action : Action) (data : Nat)
    (current_scene : CurrentScene) : List Command × Except String Unit :=
  match action with
  | .setScene name =>
    match lookupA obs.scenes name with
    | some scene_id =>
      let cmd := Command.setCurrentProgramScene scene_id
      ([cmd], net cmd)
    | none => ([], .ok ())
  | .setVolume name value =>
    match lookupA obs.inputs name with
    | some input_id =>
      let cmd := Command.setVolumeMul input_id (volume_mul value data)
      ([cmd], net cmd)
    | none => ([], .ok ())
  | .toggleInput name =>
    match lookupA obs.inputs name with
    | some input_id =>
      let cmd := Command.toggleMute input_id
      ([cmd], net cmd)
    | none => ([], .ok ())
  | .enableSceneItem name =>
    match lookupA current_scene.inputs name with
    | some input_id =>
      let cmd := Command.setEnabled current_scene.id input_id true
      ([cmd], net cmd)
    | none => ([], .ok ())
  | .disableSceneItem name =>
    match lookupA current_scene.inputs name with
    | some input_id =>
      let cmd := Command.setEnabled current_scene.id input_id false
      ([cmd], net cmd)
    | none => ([], .ok ())

/-- The `Lpd8Message` arm of the `select!` loop in `Obs::start`: resolve the
event against the mapping tables, dispatch on a match, log a failed dispatch
and keep going.  Returns the commands issued and the error strings logged. -/
def handle_lpd8 (obs : ObsState) (net : Net) (pc : List (Input × Action))
    (cc : List (Input × MappingWithDefault)) (msg : Lpd8Message)
    (current_scene : CurrentScene) : List Command × List String :=
  match msg with
  | .programChange input =>
    match lookupA pc input with
    | some action =>
      match execute_action obs net action 0 current_scene with
      | (cmds, .ok _) => (cmds, [])
      | (cmds, .error e) => (cmds, [e])
    | none => ([], [])
  | .controlChange input value =>
    match lookupA cc input with
    | some action_with_default =>
      match action_with_default.get value with
      | some action =>
        match execute_action obs net action value current_scene with
        | (cmds, .ok _) => (cmds, [])
        | (cmds, .error e) => (cmds, [e])
      | none => ([], [])
    | none => ([], [])

/-- Remote notifications observed by the loop: the scene-change notification it
reacts to, and a catch-all for every other event type, which it ignores. -/
inductive ObsEvent where
  | currentProgramSceneChanged (id : SceneId)
  | other
  deriving DecidableEq, Repr

/-- Outcome of `gather_scene_inputs` (the remote item-list query) for each
scene, supplied as an environment. -/
def Gather : Type := SceneId → Except String (List (String × Int))

/-- The notification arm of the `select!` loop in `Obs::start`: on a successful
item-list query both cache fields are replaced; on failure the previous
snapshot is kept and the error is logged; other events are ignored. -/
def handle_obs_event (gather : Gather) (event : ObsEvent)
    (current_scene : CurrentScene) : CurrentScene × List String :=
  match event with
  | .currentProgramSceneChanged id =>
    match gather id with
    | .ok scene_inputs => ({ id := id, inputs := scene_inputs }, [])
    | .error err => (current_scene, [err])
  | .other => (current_scene, [])

/-- An event delivered to the loop by one of its two sources. -/
inductive LoopEvent where
  | lpd8 (msg : Lpd8Message)
  | obs (event : ObsEvent)

/-- One iteration of the `select!` loop body of `Obs::start`: handle whichever
source produced the event; every branch falls through to the next iteration. -/
def loop_step (obs : ObsState) (net : Net) (gather : Gather)
    (pc : List (Input × Action)) (cc : List (Input × MappingWithDefault))
    (current_scene : CurrentScene) (event : LoopEvent) :
    CurrentScene × List Command × List String :=
  match event with
  | .lpd8 msg =>
    let (cmds, logs) := handle_lpd8 obs net pc cc msg current_scene
    (current_scene, cmds, logs)
  | .obs event =>
    let (scene, logs) := handle_obs_event gather event current_scene
    (scene, [], logs)

/-- Aggregate outcome of a loop run: final cache, commands issued, errors
logged, events processed. -/
structure LoopResult where
  final : CurrentScene
  cmds : List Command
  logs : List String
  processed : Nat
  deriving Repr

/-- The `select!` loop of `Obs::start`, run over the merged arrival order of its
two event sources; the run ends exactly when the sources are exhausted. -/
def loop_run (obs : ObsState) (net : Net) (gather : Gather)
    (pc : List (Input × Action)) (cc : List (Input × MappingWithDefault))
    (current_scene : CurrentScene) : List LoopEvent → LoopResult
  | [] => ⟨current_scene, [], [], 0⟩
  | event :: rest =>
    let s := loop_step obs net gather pc cc current_scene event
    let r := loop_run obs net gather pc cc s.1 rest
    ⟨r.final, s.2.1 ++ r.cmds, s.2.2 ++ r.logs, r.processed + 1⟩

/-- Modelled from the spec: the six action tags that §3 of the specification
lists for the `Action` variant, including `ToggleSceneItem`; the code-side
`Action` reconstructed from `execute_action` has no such variant. -/
inductive SpecActionKind where
  | setScene
  | setVolume
  | toggleInputMute
  | enableSceneItem
  | disableSceneItem
  | toggleSceneItem
  deriving DecidableEq, Repr

/-- The tag of a code-side `Action`, read into the spec's tag alphabet. -/
def Action.toSpecKind : Action → SpecActionKind
  | .setScene _ => .setScene
  | .setVolume _ _ => .setVolume
  | .toggleInput _ => .toggleInputMute
  | .enableSceneItem _ => .enableSceneItem
  | .disableSceneItem _ => .disableSceneItem

/-! Helper lemmas shared by several theorems. -/

/-- Looking up the key just written by `updateA` returns the written value. -/
theorem lookupA_updateA_self {α β : Type} [DecidableEq α]
    (l : List (α × β)) (a : α) (b : β) :
    lookupA (updateA l a b) a = some b := by
  induction l with
  | nil => simp [updateA, lookupA]
  | cons kv rest ih =>
    obtain ⟨k, v⟩ := kv
    by_cases h : k = a
    · simp [updateA, h, lookupA]
    · simp [updateA, h, lookupA, ih]

/-- The loop processes exactly one event per trace element, whatever the remote
outcomes are. -/
theorem loop_run_processed (obs : ObsState) (net : Net) (gather : Gather)
    (pc : List (Input × Action)) (cc : List (Input × MappingWithDefault))
    (cs : CurrentScene) (trace : List LoopEvent) :
    (loop_run obs net gather pc cc cs trace).processed = trace.length := by
  induction trace generalizing cs with
  | nil => rfl
  | cons event rest ih => simp [loop_run, ih]

/-- The program-change arm of the loop dispatches the mapped action with raw
value `0`; the commands issued are those of that dispatch. -/
theorem handle_lpd8_pc_cmds (obs : ObsState) (net : Net)
    (pc : List (Input × Action)) (cc : List (Input × MappingWithDefault))
    (input : Input) (cs : CurrentScene) (action : Action)
    (ha : lookupA pc input = some action) :
    (handle_lpd8 obs net pc cc (.programChange input) cs).1
      = (execute_action obs net action 0 cs).1 := by
  cases hr : execute_action obs net action 0 cs with
  | mk cmds res => cases res <;> simp [handle_lpd8, ha, hr]

/-! Claim theorems. -/

/-- Claim C1: resolving a control-change event looks up the input's
value-conditioned action set; an entry keyed exactly by the value takes
precedence, otherwise the set's default is used, and with neither (or no set
at all) resolution returns no action; in particular with a value-specific
action at 64 and a default, value 64 resolves to the specific action and
value 1 to the default. -/
theorem cc_resolution_precedence :
    (∀ (cc : List (Input × MappingWithDefault)) (input : Input) (value : Nat),
      lookupA cc input = none → resolve_cc cc input value = none) ∧
    (∀ (cc : List (Input × MappingWithDefault)) (input : Input) (value : Nat)
        (m : MappingWithDefault) (a : Action),
      lookupA cc input = some m → lookupA m.by_value value = some a →
      resolve_cc cc input value = some a) ∧
    (∀ (cc : List (Input × MappingWithDefault)) (input : Input) (value : Nat)
        (m : MappingWithDefault),
      lookupA cc input = some m → lookupA m.by_value value = none →
      resolve_cc cc input value = m.default) ∧
    (∀ (a d : Action),
      (MappingWithDefault.mk [(64, a)] (some d)).get 64 = some a ∧
      (MappingWithDefault.mk [(64, a)] (some d)).get 1 = some d ∧
      MappingWithDefault.empty.get 1 = none) := by
  refine ⟨?_, ?_, ?_, ?_⟩
  · intro cc input value h
    simp [resolve_cc, h]
  · intro cc input value m a h1 h2
    simp [resolve_cc, h1, MappingWithDefault.get, h2, Option.or]
  · intro cc input value m h1 h2
    simp [resolve_cc, h1, MappingWithDefault.get, h2, Option.or]
  · intro a d
    refine ⟨?_, ?_, ?_⟩ <;>
      simp [MappingWithDefault.get, MappingWithDefault.empty, lookupA, Option.or]

/-- Concrete instance of the C1 theorem: a one-input table with a specific
action at 64 and a default. -/
theorem cc_resolution_precedence_witness :
    resolve_cc [] Input.pad1 64 = none ∧
    resolve_cc [(Input.pad1, ⟨[(64, Action.setScene "A")], some (Action.setScene "B")⟩)]
        Input.pad1 64 = some (Action.setScene "A") ∧
    resolve_cc [(Input.pad1, ⟨[(64, Action.setScene "A")], some (Action.setScene "B")⟩)]
        Input.pad1 1 = some (Action.setScene "B") ∧
    (MappingWithDefault.mk [(64, Action.setScene "A")] (some (Action.setScene "B"))).get 64
      = some (Action.setScene "A") :=
  ⟨cc_resolution_precedence.1 [] Input.pad1 64 rfl,
   cc_resolution_precedence.2.1 _ Input.pad1 64 _ (Action.setScene "A") rfl rfl,
   (cc_resolution_precedence.2.2.1
      [(Input.pad1, ⟨[(64, Action.setScene "A")], some (Action.setScene "B")⟩)]
      Input.pad1 1 ⟨[(64, Action.setScene "A")], some (Action.setScene "B")⟩
      rfl rfl).trans rfl,
   (cc_resolution_precedence.2.2.2 (Action.setScene "A") (Action.setScene "B")).1⟩

/-- Claim C2 counterexample: `build_cc_mappings` is total and never rejects a
configuration; with two entries for the same `(input, value)` pair (or two
defaults for the same input) it silently keeps the later one. -/
theorem build_cc_mappings_duplicates_cex :
    resolve_cc
        (build_cc_mappings
          [[(Input.pad1, ⟨some 64, Action.setScene "A"⟩)],
           [(Input.pad1, ⟨some 64, Action.setScene "B"⟩)]])
        Input.pad1 64 = some (Action.setScene "B") ∧
    resolve_cc
        (build_cc_mappings
          [[(Input.pad2, ⟨none, Action.setScene "C"⟩)],
           [(Input.pad2, ⟨none, Action.setScene "D"⟩)]])
        Input.pad2 5 = some (Action.setScene "D") := by
  constructor <;> rfl

/-- Claim C2 (amended): mapping-table construction never fails; when a later
block supplies an entry for an `(input, value)` pair or a default already
present, the later entry silently overwrites the earlier one. -/
theorem build_cc_mappings_last_wins
    (pre : List (List (Input × ConditionalAction))) (input : Input)
    (value : Nat) (a : Action) :
    (lookupA (build_cc_mappings (pre ++ [[(input, ⟨some value, a⟩)]])) input).bind
        (fun m => lookupA m.by_value value) = some a ∧
    (lookupA (build_cc_mappings (pre ++ [[(input, ⟨none, a⟩)]])) input).map
        (fun m => m.default) = some (some a) := by
  have h : ∀ ca : ConditionalAction,
      build_cc_mappings (pre ++ [[(input, ca)]])
        = cc_insert (build_cc_mappings pre) (input, ca) := by
    intro ca
    simp [build_cc_mappings, List.foldl_append]
  constructor
  · rw [h]
    simp [cc_insert, lookupA_updateA_self]
  · rw [h]
    simp [cc_insert, lookupA_updateA_self]

/-- Claim C3: for raw codes `k ≤ 7`, codes `k` and `k + 12` normalize to the
same pad input; codes `70..=77` normalize to distinct non-pad inputs; every
code outside those ranges fails to resolve and the message is dropped (the
classifier yields no event) rather than aborting processing. -/
theorem input_normalization_aliasing :
    (∀ k : Nat, k ≤ 7 →
      Input.tryFrom (k + 12) = Input.tryFrom k ∧
      ∃ i : Input, Input.tryFrom k = .ok i ∧ i.isPad = true) ∧
    (∀ c : Nat, 70 ≤ c → c ≤ 77 →
      ∃ i : Input, Input.tryFrom c = .ok i ∧ i.isPad = false) ∧
    (∀ c d : Nat, 70 ≤ c → c ≤ 77 → 70 ≤ d → d ≤ 77 →
      Input.tryFrom c = Input.tryFrom d → c = d) ∧
    (∀ c : Nat, ¬ c ≤ 7 → ¬ (12 ≤ c ∧ c ≤ 19) → ¬ (70 ≤ c ∧ c ≤ 77) →
      Input.tryFrom c = .error (.unknownInput c) ∧
      process_input [0xB0, c, 5] = none ∧
      process_input [0xC0, c] = none) := by
  refine ⟨?_, ?_, ?_, ?_⟩
  · intro k hk
    interval_cases k <;> exact ⟨by decide, by decide⟩
  · intro c h1 h2
    interval_cases c <;> decide
  · intro c d hc1 hc2 hd1 hd2 h
    interval_cases c <;> interval_cases d <;> first | rfl | (exfalso; revert h; decide)
  · intro c h1 h2 h3
    have he : Input.tryFrom c = .error (.unknownInput c) := by
      rw [Input.tryFrom]
      rw [if_neg (by omega), if_neg (by omega), if_neg (by omega), if_neg (by omega)]
      rw [if_neg (by omega), if_neg (by omega), if_neg (by omega), if_neg (by omega)]
      rw [if_neg (by omega), if_neg (by omega), if_neg (by omega), if_neg (by omega)]
      rw [if_neg (by omega), if_neg (by omega), if_neg (by omega), if_neg (by omega)]
    refine ⟨he, ?_, ?_⟩
    · rw [process_input]
      norm_num
      simp [control_change, he, Except.toOption]
    · rw [process_input]
      norm_num
      simp [program_change, he, Except.toOption]

/-- Concrete instance of the C3 theorem at codes 3/15, 70, and the unmapped
code 42. -/
theorem input_normalization_aliasing_witness :
    (Input.tryFrom 15 = Input.tryFrom 3 ∧
      ∃ i : Input, Input.tryFrom 3 = .ok i ∧ i.isPad = true) ∧
    (∃ i : Input, Input.tryFrom 70 = .ok i ∧ i.isPad = false) ∧
    (70 : Nat) = 70 ∧
    (Input.tryFrom 42 = .error (.unknownInput 42) ∧
      process_input [0xB0, 42, 5] = none ∧
      process_input [0xC0, 42] = none) :=
  ⟨input_normalization_aliasing.1 3 (by decide),
   input_normalization_aliasing.2.1 70 (by decide) (by decide),
   input_normalization_aliasing.2.2.1 70 70 (by decide) (by decide) (by decide)
     (by decide) rfl,
   input_normalization_aliasing.2.2.2 42 (by decide) (by decide) (by decide)⟩

/-- Claim C4, evaluated at the failing input: the classifier tests
`status & 0xC0 == 0xC0`, not the high nibble, so the two-byte message
`[0xD0, 0x00]` (high nibble 0xD, a MIDI channel-pressure status) is classified
as a program-change event even though its high nibble is not 0xC. -/
theorem process_input_mask_misclassification :
    process_input [0xD0, 0x00] = some (.programChange .pad1) ∧
    (0xD0 : Nat) >>> 4 ≠ 0xC := by
  constructor
  · rfl
  · decide

/-- Claim C5: on a scene-change notification, a successful item-list query
replaces the scene id and the item map together as one snapshot; a failed
query leaves the previous snapshot unchanged, logs the failure, and the loop
goes on to process the remaining events. -/
theorem scene_change_snapshot (gather : Gather) (id : SceneId)
    (cs : CurrentScene) :
    (∀ scene_inputs, gather id = .ok scene_inputs →
      handle_obs_event gather (.currentProgramSceneChanged id) cs
        = (⟨id, scene_inputs⟩, [])) ∧
    (∀ err, gather id = .error err →
      handle_obs_event gather (.currentProgramSceneChanged id) cs
        = (cs, [err])) ∧
    (∀ (obs : ObsState) (net : Net) (pc : List (Input × Action))
        (cc : List (Input × MappingWithDefault)) (rest : List LoopEvent),
      (loop_run obs net gather pc cc cs
          (.obs (.currentProgramSceneChanged id) :: rest)).processed
        = rest.length + 1) := by
  refine ⟨?_, ?_, ?_⟩
  · intro scene_inputs h
    simp [handle_obs_event, h]
  · intro err h
    simp [handle_obs_event, h]
  · intro obs net pc cc rest
    simp [loop_run, loop_run_processed]

/-- Concrete instance of the C5 theorem: one successful and one failing
item-list query against the same starting snapshot. -/
theorem scene_change_snapshot_witness :
    handle_obs_event (fun _ => .ok [("cam", (1 : Int))])
        (.currentProgramSceneChanged ⟨"S", "u"⟩) ⟨⟨"T", "v"⟩, []⟩
      = (⟨⟨"S", "u"⟩, [("cam", 1)]⟩, []) ∧
    handle_obs_event (fun _ => .error "boom")
        (.currentProgramSceneChanged ⟨"S", "u"⟩) ⟨⟨"T", "v"⟩, []⟩
      = (⟨⟨"T", "v"⟩, []⟩, ["boom"]) ∧
    (loop_run ⟨[], []⟩ (fun _ => .ok ()) (fun _ => .error "boom") [] []
        ⟨⟨"T", "v"⟩, []⟩ [.obs (.currentProgramSceneChanged ⟨"S", "u"⟩)]).processed
      = 1 :=
  ⟨(scene_change_snapshot (fun _ => .ok [("cam", (1 : Int))]) ⟨"S", "u"⟩
      ⟨⟨"T", "v"⟩, []⟩).1 [("cam", (1 : Int))] rfl,
   (scene_change_snapshot (fun _ => .error "boom") ⟨"S", "u"⟩
      ⟨⟨"T", "v"⟩, []⟩).2.1 "boom" rfl,
   (scene_change_snapshot (fun _ => .error "boom") ⟨"S", "u"⟩
      ⟨⟨"T", "v"⟩, []⟩).2.2 ⟨[], []⟩ (fun _ => .ok ()) [] [] []⟩

/-- Claim C6: a dispatched action whose target name does not resolve (scene
catalog for SetScene, input catalog for SetVolume and the mute toggle, current
scene items for the scene-item actions) issues no remote command and returns
success. -/
theorem unresolved_names_noop (obs : ObsState) (net : Net) (cs : CurrentScene)
    (name : String) (data : Nat) :
    (lookupA obs.scenes name = none →
      execute_action obs net (.setScene name) data cs = ([], .ok ())) ∧
    (lookupA obs.inputs name = none →
      (∀ vol, execute_action obs net (.setVolume name vol) data cs = ([], .ok ())) ∧
      execute_action obs net (.toggleInput name) data cs = ([], .ok ())) ∧
    (lookupA cs.inputs name = none →
      execute_action obs net (.enableSceneItem name) data cs = ([], .ok ()) ∧
      execute_action obs net (.disableSceneItem name) data cs = ([], .ok ())) := by
  refine ⟨?_, ?_, ?_⟩
  · intro h
    simp [execute_action, h]
  · intro h
    exact ⟨fun vol => by simp [execute_action, h], by simp [execute_action, h]⟩
  · intro h
    exact ⟨by simp [execute_action, h], by simp [execute_action, h]⟩

/-- Concrete instance of the C6 theorem: empty catalogs and an empty scene
snapshot, name `ghost`. -/
theorem unresolved_names_noop_witness :
    execute_action ⟨[], []⟩ (fun _ => .ok ()) (.setScene "ghost") 3 ⟨⟨"T", "v"⟩, []⟩
      = ([], .ok ()) ∧
    execute_action ⟨[], []⟩ (fun _ => .ok ()) (.setVolume "ghost" .pass) 3 ⟨⟨"T", "v"⟩, []⟩
      = ([], .ok ()) ∧
    execute_action ⟨[], []⟩ (fun _ => .ok ()) (.toggleInput "ghost") 3 ⟨⟨"T", "v"⟩, []⟩
      = ([], .ok ()) ∧
    execute_action ⟨[], []⟩ (fun _ => .ok ()) (.enableSceneItem "ghost") 3 ⟨⟨"T", "v"⟩, []⟩
      = ([], .ok ()) ∧
    execute_action ⟨[], []⟩ (fun _ => .ok ()) (.disableSceneItem "ghost") 3 ⟨⟨"T", "v"⟩, []⟩
      = ([], .ok ()) :=
  ⟨(unresolved_names_noop ⟨[], []⟩ (fun _ => .ok ()) ⟨⟨"T", "v"⟩, []⟩ "ghost" 3).1 rfl,
   (unresolved_names_noop ⟨[], []⟩ (fun _ => .ok ()) ⟨⟨"T", "v"⟩, []⟩ "ghost" 3).2.1 rfl |>.1 .pass,
   (unresolved_names_noop ⟨[], []⟩ (fun _ => .ok ()) ⟨⟨"T", "v"⟩, []⟩ "ghost" 3).2.1 rfl |>.2,
   (unresolved_names_noop ⟨[], []⟩ (fun _ => .ok ()) ⟨⟨"T", "v"⟩, []⟩ "ghost" 3).2.2 rfl |>.1,
   (unresolved_names_noop ⟨[], []⟩ (fun _ => .ok ()) ⟨⟨"T", "v"⟩, []⟩ "ghost" 3).2.2 rfl |>.2⟩

/-- Claim C7: whatever the outcome of every remote call (`net`) and every cache
refresh (`gather`), the loop processes each event of the merged source trace
and only stops when the trace is exhausted — a failed dispatch or refresh never
terminates it early. -/
theorem loop_survives_event_failures (obs : ObsState) (net : Net)
    (gather : Gather) (pc : List (Input × Action))
    (cc : List (Input × MappingWithDefault)) (cs : CurrentScene)
    (trace : List LoopEvent) :
    (loop_run obs net gather pc cc cs trace).processed = trace.length :=
  loop_run_processed obs net gather pc cc cs trace

/-- Claim C8: a SetVolume dispatch whose name resolves issues exactly one
volume command; in pass mode the multiplier is the triggering raw value over
127 (so 127 gives 1 and 0 gives 0) and in fixed mode the configured integer
over 100. -/
theorem setvolume_mul_semantics (obs : ObsState) (net : Net)
    (cs : CurrentScene) (name : String) (input_id : InputId) (data : Nat)
    (vol : Volume) (h : lookupA obs.inputs name = some input_id) :
    (execute_action obs net (.setVolume name vol) data cs).1
      = [.setVolumeMul input_id (volume_mul vol data)] ∧
    volume_mul .pass data = (data : ℚ) / 127 ∧
    (∀ v : Nat, volume_mul (.value v) data = (v : ℚ) / 100) ∧
    volume_mul .pass 127 = 1 ∧
    volume_mul .pass 0 = 0 := by
  refine ⟨?_, rfl, fun v => rfl, ?_, ?_⟩
  · simp [execute_action, h]
  · norm_num [volume_mul]
  · norm_num [volume_mul]

/-- Concrete instance of the C8 theorem: the catalog resolves `Mic`; pass mode
at raw values 127 and 0. -/
theorem setvolume_mul_semantics_witness :
    (execute_action ⟨[], [("Mic", ⟨"Mic", "u1"⟩)]⟩ (fun _ => .ok ())
        (.setVolume "Mic" .pass) 127 ⟨⟨"T", "v"⟩, []⟩).1
      = [.setVolumeMul ⟨"Mic", "u1"⟩ (volume_mul .pass 127)] ∧
    volume_mul .pass 127 = 1 ∧
    volume_mul .pass 0 = 0 :=
  ⟨(setvolume_mul_semantics ⟨[], [("Mic", ⟨"Mic", "u1"⟩)]⟩ (fun _ => .ok ())
      ⟨⟨"T", "v"⟩, []⟩ "Mic" ⟨"Mic", "u1"⟩ 127 .pass rfl).1,
   (setvolume_mul_semantics ⟨[], [("Mic", ⟨"Mic", "u1"⟩)]⟩ (fun _ => .ok ())
      ⟨⟨"T", "v"⟩, []⟩ "Mic" ⟨"Mic", "u1"⟩ 127 .pass rfl).2.2.2.1,
   (setvolume_mul_semantics ⟨[], [("Mic", ⟨"Mic", "u1"⟩)]⟩ (fun _ => .ok ())
      ⟨⟨"T", "v"⟩, []⟩ "Mic" ⟨"Mic", "u1"⟩ 127 .pass rfl).2.2.2.2⟩

/-- Claim C9 counterexample: the code-side `Action` type, reconstructed from
the exhaustive match in `execute_action`, has no variant with the spec's
`ToggleSceneItem` tag. -/
theorem action_no_toggle_scene_item :
    ¬ ∃ a : Action, a.toSpecKind = SpecActionKind.toggleSceneItem := by
  rintro ⟨a, h⟩
  cases a <;> simp [Action.toSpecKind] at h

/-- Claim C9 (amended): `Action` comprises exactly the five tags SetScene,
SetVolume, ToggleInput (the mute toggle), EnableSceneItem and DisableSceneItem,
each handled by the dispatcher's exhaustive case analysis; for an
Enable/DisableSceneItem action whose name resolves in the snapshot's items, the
item-visibility command is issued scoped to the snapshot's active scene id. -/
theorem action_variants_exhaustive (obs : ObsState) (net : Net)
    (cs : CurrentScene) (name : String) (item : Int) (data : Nat)
    (h : lookupA cs.inputs name = some item) :
    (∀ a : Action,
      a.toSpecKind ∈ [SpecActionKind.setScene, SpecActionKind.setVolume,
        SpecActionKind.toggleInputMute, SpecActionKind.enableSceneItem,
        SpecActionKind.disableSceneItem]) ∧
    (execute_action obs net (.enableSceneItem name) data cs).1
      = [.setEnabled cs.id item true] ∧
    (execute_action obs net (.disableSceneItem name) data cs).1
      = [.setEnabled cs.id item false] := by
  refine ⟨?_, ?_, ?_⟩
  · intro a
    cases a <;> simp [Action.toSpecKind]
  · simp [execute_action, h]
  · simp [execute_action, h]

/-- Concrete instance of the amended C9 theorem: snapshot scene `T` with item
`cam`. -/
theorem action_variants_exhaustive_witness :
    Action.toSpecKind (.toggleInput "Mic") ∈ [SpecActionKind.setScene,
      SpecActionKind.setVolume, SpecActionKind.toggleInputMute,
      SpecActionKind.enableSceneItem, SpecActionKind.disableSceneItem] ∧
    (execute_action ⟨[], []⟩ (fun _ => .ok ()) (.enableSceneItem "cam") 0
        ⟨⟨"T", "v"⟩, [("cam", 7)]⟩).1
      = [.setEnabled ⟨"T", "v"⟩ 7 true] ∧
    (execute_action ⟨[], []⟩ (fun _ => .ok ()) (.disableSceneItem "cam") 0
        ⟨⟨"T", "v"⟩, [("cam", 7)]⟩).1
      = [.setEnabled ⟨"T", "v"⟩ 7 false] :=
  ⟨(action_variants_exhaustive ⟨[], []⟩ (fun _ => .ok ())
      ⟨⟨"T", "v"⟩, [("cam", 7)]⟩ "cam" 7 0 rfl).1 (.toggleInput "Mic"),
   (action_variants_exhaustive ⟨[], []⟩ (fun _ => .ok ())
      ⟨⟨"T", "v"⟩, [("cam", 7)]⟩ "cam" 7 0 rfl).2.1,
   (action_variants_exhaustive ⟨[], []⟩ (fun _ => .ok ())
      ⟨⟨"T", "v"⟩, [("cam", 7)]⟩ "cam" 7 0 rfl).2.2⟩

/-- Claim C10: the program-change arm of the loop always dispatches with raw
value 0, so a pass-mode SetVolume action reached through a program-change
input issues multiplier 0, whichever pad was pressed. -/
theorem program_change_dispatches_zero (obs : ObsState) (net : Net)
    (pc : List (Input × Action)) (cc : List (Input × MappingWithDefault))
    (input : Input) (cs : CurrentScene) :
    (∀ action, lookupA pc input = some action →
      (handle_lpd8 obs net pc cc (.programChange input) cs).1
        = (execute_action obs net action 0 cs).1) ∧
    (∀ (name : String) (input_id : InputId),
      lookupA pc input = some (.setVolume name .pass) →
      lookupA obs.inputs name = some input_id →
      (handle_lpd8 obs net pc cc (.programChange input) cs).1
        = [.setVolumeMul input_id 0]) := by
  constructor
  · intro action ha
    exact handle_lpd8_pc_cmds obs net pc cc input cs action ha
  · intro name input_id ha hb
    rw [handle_lpd8_pc_cmds obs net pc cc input cs _ ha]
    have h0 : volume_mul .pass 0 = 0 := by norm_num [volume_mul]
    simp [execute_action, hb, h0]

/-- Concrete instance of the C10 theorem: Pad1 mapped to pass-mode SetVolume
of `Mic`; the issued multiplier is 0. -/
theorem program_change_dispatches_zero_witness :
    (handle_lpd8 ⟨[], [("Mic", ⟨"Mic", "u1"⟩)]⟩ (fun _ => .ok ())
        [(Input.pad1, .setVolume "Mic" .pass)] [] (.programChange .pad1)
        ⟨⟨"T", "v"⟩, []⟩).1
      = [.setVolumeMul ⟨"Mic", "u1"⟩ 0] :=
  (program_change_dispatches_zero ⟨[], [("Mic", ⟨"Mic", "u1"⟩)]⟩ (fun _ => .ok ())
      [(Input.pad1, .setVolume "Mic" .pass)] [] .pad1 ⟨⟨"T", "v"⟩, []⟩).2
    "Mic" ⟨"Mic", "u1"⟩ rfl rfl

end AkaiLpd8
